import Mathlib

/-!
Verification of `fetch_and_parse.py` (devconnect_events).

We shallowly embed the JSON data model and the extraction pipeline
(`find_event_dicts`, `extract_event_fields`, `parse_capture_to_events`),
together with a model of the capture stage's control flow (Playwright
availability check, scroll loop with idle timeout), and prove the spec's
testable properties against them.

Python values flowing through the extractor are JSON values; Python
exceptions are modelled by `Option` (`none` = the call raises).
-/

/-- A JSON value as produced by `json.load`: null, booleans, numbers
(modelled as rationals), strings, arrays, and objects with string keys in
insertion order. -/
inductive JVal where
  | null : JVal
  | bool (b : Bool) : JVal
  | num (q : ℚ) : JVal
  | str (s : String) : JVal
  | arr (elems : List JVal) : JVal
  | obj (fields : List (String × JVal)) : JVal
deriving Repr

/-- First-match association lookup, the embedding of `d[k]` / `d.get(k)`
on a parsed-JSON dict (keys are unique after `json.load`). -/
def dictFind : List (String × JVal) → String → Option JVal
  | [], _ => none
  | (k, v) :: rest, key => if k = key then some v else dictFind rest key

/-- Python `d.get(k, dflt)`. -/
def pyGetD (kvs : List (String × JVal)) (k : String) (dflt : JVal) : JVal :=
  match dictFind kvs k with
  | some v => v
  | none => dflt

/-- Python `d.get(k)` (default `None`). -/
def dGet (kvs : List (String × JVal)) (k : String) : JVal :=
  pyGetD kvs k JVal.null

/-- Python truthiness of a JSON value. -/
def truthy : JVal → Bool
  | JVal.null => false
  | JVal.bool b => b
  | JVal.num q => decide (q ≠ 0)
  | JVal.str s => decide (s ≠ "")
  | JVal.arr xs => !xs.isEmpty
  | JVal.obj kvs => !kvs.isEmpty

/-- Python `a or b`. -/
def pyOr (a b : JVal) : JVal :=
  if truthy a then a else b

/-- `isinstance(v, dict)`: yields the fields when `v` is a mapping. -/
def asDict : JVal → Option (List (String × JVal))
  | JVal.obj kvs => some kvs
  | _ => none

/-- `isinstance(v, dict)` as a Bool. -/
def isDict (v : JVal) : Bool :=
  (asDict v).isSome

/-- Line 108: `"event" in obj and isinstance(obj["event"], dict)`. -/
def isEventRecord (kvs : List (String × JVal)) : Bool :=
  match dictFind kvs "event" with
  | some (JVal.obj _) => true
  | _ => false

mutual

/-- `find_event_dicts` (fetch_and_parse.py lines 104-115): recursively find
dicts that contain an `event` key mapping to a dict. -/
def find_event_dicts : JVal → List (List (String × JVal))
  | JVal.obj kvs =>
      (if isEventRecord kvs then [kvs] else []) ++ find_in_values kvs
  | JVal.arr xs => find_in_elems xs
  | _ => []

/-- The `for v in obj.values(): found.extend(find_event_dicts(v))` loop. -/
def find_in_values : List (String × JVal) → List (List (String × JVal))
  | [] => []
  | (_, v) :: rest => find_event_dicts v ++ find_in_values rest

/-- The `for item in obj: found.extend(find_event_dicts(item))` loop. -/
def find_in_elems : List JVal → List (List (String × JVal))
  | [] => []
  | v :: rest => find_event_dicts v ++ find_in_elems rest

end

/-- The fixed URL prefix `BASE_EVENT_URL`. -/
def BASE_EVENT_URL : String := "https://luma.com/"

/-- Python `s.startswith("/")`: the first character is a slash. -/
def startsWithSlash (s : String) : Bool :=
  match s.data with
  | [] => false
  | c :: _ => c = '/'

/-- Lines 125-130: derive `full_url` from `ev.get("url")`. `none` models the
`AttributeError`/`TypeError` raised when a truthy non-string is used. -/
def full_url_of (url_val : JVal) : Option JVal :=
  if truthy url_val then
    match url_val with
    | JVal.str s =>
        some (JVal.str (BASE_EVENT_URL ++ (if startsWithSlash s then s.drop 1 else s)))
    | _ => none
  else
    some JVal.null

/-- Python `cents / 100.0` (line 154); raises (`none`) unless `cents` is a
number or a bool (Python bools divide as 0/1). -/
def divBy100 : JVal → Option JVal
  | JVal.num q => some (JVal.num (q / 100))
  | JVal.bool b => some (JVal.num ((if b then 1 else 0 : ℚ) / 100))
  | _ => none

/-- Lines 153-155: the `ticket_price_usd` expression over the chosen
`ticket` dict. -/
def price_of (ticket : List (String × JVal)) : Option JVal :=
  if truthy (dGet ticket "is_free") then
    some JVal.null
  else
    match asDict (pyOr (dGet ticket "price") (JVal.obj [])) with
    | none => none
    | some prd =>
        match dGet prd "cents" with
        | JVal.null => some JVal.null
        | c => divBy100 c

/-- Line 123: `record.get("ticket_info") or ev.get("ticket_info") or {}`. -/
def ticket_source (record evd : List (String × JVal)) : JVal :=
  pyOr (dGet record "ticket_info") (pyOr (dGet evd "ticket_info") (JVal.obj []))

/-- Lines 132-165: the returned dict literal, given the already-computed
intermediate values. -/
def mkOutput (record evd geo coord ticket : List (String × JVal))
    (full_url price : JVal) : List (String × JVal) :=
  [("name", dGet evd "name"),
   ("url", full_url),
   ("geo_address_info_city", dGet geo "city"),
   ("geo_address_info_type", dGet geo "type"),
   ("geo_address_info_region", dGet geo "region"),
   ("geo_address_info_address", dGet geo "address"),
   ("geo_address_info_country", dGet geo "country"),
   ("geo_address_info_place_id", dGet geo "place_id"),
   ("geo_address_info_city_state", dGet geo "city_state"),
   ("geo_address_info_description", dGet geo "description"),
   ("geo_address_info_country_code", dGet geo "country_code"),
   ("geo_address_info_full_address", dGet geo "full_address"),
   ("geo_address_info_apple_maps_place_id", dGet geo "apple_maps_place_id"),
   ("geo_address_info_mode", dGet geo "mode"),
   ("geo_address_visibility", dGet evd "geo_address_visibility"),
   ("latitude", dGet coord "latitude"),
   ("longitude", dGet coord "longitude"),
   ("ticket_is_free", dGet ticket "is_free"),
   ("ticket_price_usd", price),
   ("ticket_require_approval", dGet ticket "require_approval"),
   ("ticket_is_sold_out", dGet ticket "is_sold_out"),
   ("ticket_count", dGet record "ticket_count"),
   ("guest_count", dGet record "guest_count"),
   ("ticket_max_price", dGet ticket "max_price"),
   ("ticket_spots_remaining", dGet ticket "spots_remaining"),
   ("ticket_is_near_capacity", dGet ticket "is_near_capacity"),
   ("ticket_currency_info", dGet ticket "currency_info"),
   ("waitlist_enabled", dGet evd "waitlist_enabled")]

/-- `extract_event_fields` (lines 118-165). `none` models a raised
exception: a truthy non-dict `geo_address_info` / `coordinate` /
`ticket_info` / `price`, a truthy non-string `url`, or a non-numeric
`cents` makes the Python code raise (`.get` on a non-dict, `.startswith`
on a non-string, `/` on a non-number); the `isinstance`-guarded ticket
fields never raise, but line 153 calls `ticket.get` unguarded, so a
non-dict `ticket` always raises before the dict literal is completed. -/
def extract_event_fields (record : List (String × JVal)) :
    Option (List (String × JVal)) := do
  let evd ← asDict (pyOr (pyGetD record "event" (JVal.obj [])) (JVal.obj []))
  let geo ← asDict (pyOr (dGet evd "geo_address_info") (JVal.obj []))
  let coord ← asDict (pyOr (dGet evd "coordinate") (JVal.obj []))
  let ticket ← asDict (ticket_source record evd)
  let full_url ← full_url_of (dGet evd "url")
  let price ← price_of ticket
  some (mkOutput record evd geo coord ticket full_url price)

/-- The `for rec in records: all_results.append(extract_event_fields(rec))`
loop (lines 182-183). -/
def extract_from_records : List (List (String × JVal)) →
    Option (List (List (String × JVal)))
  | [] => some []
  | r :: rs => do
      let e ← extract_event_fields r
      let es ← extract_from_records rs
      some (e :: es)

/-- Lines 178-183 for one capture's body: `if not body: continue` skips
falsy bodies, otherwise all found records are extracted. -/
def body_results (body : JVal) : Option (List (List (String × JVal))) :=
  if truthy body then extract_from_records (find_event_dicts body) else some []

/-- The `for cap in captures` loop (lines 177-183): `cap.get("body")`
raises unless `cap` is a dict. -/
def extract_from_captures : List JVal → Option (List (List (String × JVal)))
  | [] => some []
  | cap :: rest => do
      let capd ← asDict cap
      let here ← body_results (dGet capd "body")
      let there ← extract_from_captures rest
      some (here ++ there)

/-- `parse_capture_to_events` (lines 168-185) applied to the parsed capture
array: returns `(len(captures), all_results)`, `none` when extraction
raises. -/
def parse_capture_to_events (captures : List JVal) :
    Option (Nat × List (List (String × JVal))) := do
  let evs ← extract_from_captures captures
  some (captures.length, evs)

/-! ## Capture stage (lines 42-101) and `main` (lines 188-221) -/

/-- Lines 83-93, the scroll loop: one recursive call per iteration
(`page.evaluate(...)`; `time.sleep(1)` advances the clock by one unit).
`count t` is `len(captured)` at time `t`, `last_count`/`idle_since` are
the loop variables, and the result is the value of `len(captured)` when
the idle check `time.time() - idle_since > timeout_idle` breaks the loop.
The first argument is fuel: `none` means the loop has not terminated
within that many iterations. -/
def scroll_loop (count : Nat → Nat) (timeout_idle : Nat) :
    Nat → Nat → Nat → Nat → Option Nat
  | 0, _, _, _ => none
  | fuel + 1, t, last_count, idle_since =>
      let t' := t + 1
      let c := count t'
      let last' := if last_count < c then c else last_count
      let idle' := if last_count < c then t' else idle_since
      if timeout_idle < t' - idle' then some c
      else scroll_loop count timeout_idle fuel t' last' idle'

/-- Model of `capture_with_playwright` (lines 42-101) at the level of its
control flow: when the `playwright.sync_api` import fails (lines 49-54), a
`RuntimeError` with remediation instructions is raised before the browser
is launched and before the capture file is written; otherwise the browsing
session yields the captured responses, which are written to the capture
file. -/
def capture_with_playwright (playwright_available : Bool)
    (responses : List JVal) : Except String (List JVal) :=
  if playwright_available then
    Except.ok responses
  else
    Except.error
      "Playwright is not installed. Install it with: `pip install playwright` and run `playwright install`"

/-- The observable outcome of one run of `main`: the exit code (`none`
means an uncaught exception, i.e. a nonzero runtime exit), the contents
written to the capture file, and the serialized text written to the
output file, `none` when the file was never written. -/
structure RunOutcome where
  exit_code : Option Nat
  capture_file : Option (List JVal)
  output_file : Option String
deriving Repr

mutual

/-- Models the serialization of a value into the output file
(`json.dump(events, f, ensure_ascii=False, indent=2)`, line 210); the
precise layout (indentation, number formatting) is abstracted, which no
claim depends on: only that it is a fixed function of the value. -/
def jserialize : JVal → String
  | JVal.null => "null"
  | JVal.bool true => "true"
  | JVal.bool false => "false"
  | JVal.num q =>
      toString q.num ++ (if q.den = 1 then "" else "/" ++ toString q.den)
  | JVal.str s => "\"" ++ s ++ "\""
  | JVal.arr xs => "[" ++ jserializeElems xs ++ "]"
  | JVal.obj kvs => "\x7b" ++ jserializeFields kvs ++ "\x7d"

/-- Comma-separated serialization of array elements. -/
def jserializeElems : List JVal → String
  | [] => ""
  | [x] => jserialize x
  | x :: y :: xs => jserialize x ++ ", " ++ jserializeElems (y :: xs)

/-- Comma-separated serialization of object fields. -/
def jserializeFields : List (String × JVal) → String
  | [] => ""
  | [(k, v)] => "\"" ++ k ++ "\": " ++ jserialize v
  | (k, v) :: p :: kvs =>
      "\"" ++ k ++ "\": " ++ jserialize v ++ ", " ++ jserializeFields (p :: kvs)

end

/-- Step 2 of `main` (lines 208-210): parse the capture and serialize the
extracted event list into the output file; `none` models an uncaught
exception during extraction. -/
def extraction_output (captures : List JVal) : Option String :=
  (parse_capture_to_events captures).map
    (fun p => jserialize (JVal.arr (p.2.map JVal.obj)))

/-- Model of `main` (lines 188-221): step 1 captures (a `RuntimeError` is
caught, printed to stderr and turned into exit code 3, lines 203-205,
with no file written); step 2 parses the capture file and writes the
output file; any exception there is uncaught (`exit_code = none`). -/
def main_model (playwright_available : Bool) (responses : List JVal) :
    RunOutcome :=
  match capture_with_playwright playwright_available responses with
  | Except.error _ => ⟨some 3, none, none⟩
  | Except.ok captured =>
      match extraction_output captured with
      | none => ⟨none, some captured, none⟩
      | some out => ⟨some 0, some captured, some out⟩

/-! ## Safety characterization for `extract_event_fields`

The Python code raises (`AttributeError`/`TypeError`) on certain shapes of
matched records; `recordSafe` characterizes, directly from the raise
sites, the records on which it does not. -/

/-- `full_url_of` does not raise: the url value is a string or falsy
(lines 127-130 call `.startswith` on any truthy value). -/
def urlSafe : JVal → Bool
  | JVal.str _ => true
  | v => !truthy v

/-- `cents / 100.0` does not raise: absent/None, a number, or a bool. -/
def centsSafe : JVal → Bool
  | JVal.null => true
  | JVal.num _ => true
  | JVal.bool _ => true
  | _ => false

/-- The price expression (lines 153-155) does not raise on ticket dict
`tk`: either the record is free, or the `price` value (defaulted to `{}`)
is a mapping whose `cents` value is safe to divide. -/
def priceSafe (tk : List (String × JVal)) : Bool :=
  truthy (dGet tk "is_free") ||
    (match asDict (pyOr (dGet tk "price") (JVal.obj [])) with
     | none => false
     | some prd => centsSafe (dGet prd "cents"))

/-- The selected ticket source is a mapping and its price expression is
safe. -/
def ticketSafe : JVal → Bool
  | JVal.obj tk => priceSafe tk
  | _ => false

/-- All field accesses on a given event value succeed: it is a mapping
whose defaulted `geo_address_info` / `coordinate` are mappings, whose
ticket source is safe, and whose url value is safe. -/
def eventSafe (record : List (String × JVal)) : JVal → Bool
  | JVal.obj evd =>
      isDict (pyOr (dGet evd "geo_address_info") (JVal.obj [])) &&
      isDict (pyOr (dGet evd "coordinate") (JVal.obj [])) &&
      ticketSafe (ticket_source record evd) &&
      urlSafe (dGet evd "url")
  | _ => false

/-- `extract_event_fields record` does not raise: the `event` value (or
`{}`) passes all the checks above. -/
def recordSafe (record : List (String × JVal)) : Bool :=
  eventSafe record (pyOr (pyGetD record "event" (JVal.obj [])) (JVal.obj []))

/-- The fixed key set of every extracted event, in output order
(lines 132-165). -/
def output_keys : List String :=
  ["name", "url",
   "geo_address_info_city", "geo_address_info_type",
   "geo_address_info_region", "geo_address_info_address",
   "geo_address_info_country", "geo_address_info_place_id",
   "geo_address_info_city_state", "geo_address_info_description",
   "geo_address_info_country_code", "geo_address_info_full_address",
   "geo_address_info_apple_maps_place_id", "geo_address_info_mode",
   "geo_address_visibility", "latitude", "longitude",
   "ticket_is_free", "ticket_price_usd", "ticket_require_approval",
   "ticket_is_sold_out", "ticket_count", "guest_count",
   "ticket_max_price", "ticket_spots_remaining",
   "ticket_is_near_capacity", "ticket_currency_info", "waitlist_enabled"]

/-- The output fields projected from the `geo_address_info`, `coordinate`
and `ticket_info` sub-objects (the fields that are null when those
sub-objects are absent). -/
def sub_object_keys : List String :=
  ["geo_address_info_city", "geo_address_info_type",
   "geo_address_info_region", "geo_address_info_address",
   "geo_address_info_country", "geo_address_info_place_id",
   "geo_address_info_city_state", "geo_address_info_description",
   "geo_address_info_country_code", "geo_address_info_full_address",
   "geo_address_info_apple_maps_place_id", "geo_address_info_mode",
   "latitude", "longitude",
   "ticket_is_free", "ticket_price_usd", "ticket_require_approval",
   "ticket_is_sold_out", "ticket_max_price", "ticket_spots_remaining",
   "ticket_is_near_capacity", "ticket_currency_info"]

/-! ## Basic lemmas -/

/-- For a matched record, line 120 always yields the event mapping itself:
a truthy (non-empty) event mapping passes `or` unchanged, and an empty one
is replaced by the equal `{}`. -/
theorem ev_of_matched (record : List (String × JVal))
    (evkvs : List (String × JVal))
    (h : dictFind record "event" = some (JVal.obj evkvs)) :
    pyOr (pyGetD record "event" (JVal.obj [])) (JVal.obj []) = JVal.obj evkvs := by
  unfold pyGetD pyOr
  rw [h]
  cases evkvs with
  | nil => simp [truthy]
  | cons a l => simp [truthy]

/-- A safe url value makes the url derivation succeed. -/
theorem urlSafe_isSome (u : JVal) (h : urlSafe u = true) :
    (full_url_of u).isSome = true := by
  unfold full_url_of
  cases u <;> simp_all [urlSafe]
  split <;> simp

/-- A safe price shape makes the price derivation succeed. -/
theorem priceSafe_isSome (tk : List (String × JVal)) (h : priceSafe tk = true) :
    (price_of tk).isSome = true := by
  unfold priceSafe at h
  unfold price_of
  by_cases hf : truthy (dGet tk "is_free")
  · simp [hf]
  · simp only [hf, Bool.false_or, if_neg, Bool.not_eq_true] at *
    cases hpr : asDict (pyOr (dGet tk "price") (JVal.obj [])) with
    | none => rw [hpr] at h; simp at h
    | some prd =>
        rw [hpr] at h
        simp only [] at h
        simp only [hpr]
        cases hc : dGet prd "cents" <;> rw [hc] at h <;>
          simp_all [centsSafe, divBy100]

/-- Introduction form for a successful `extract_event_fields` run: all six
intermediate computations succeed and the result is the dict literal. -/
theorem extract_build (record evd geo coord ticket : List (String × JVal))
    (fu pr : JVal)
    (hev : asDict (pyOr (pyGetD record "event" (JVal.obj [])) (JVal.obj []))
      = some evd)
    (hgeo : asDict (pyOr (dGet evd "geo_address_info") (JVal.obj [])) = some geo)
    (hcoord : asDict (pyOr (dGet evd "coordinate") (JVal.obj [])) = some coord)
    (hti : asDict (ticket_source record evd) = some ticket)
    (hfu : full_url_of (dGet evd "url") = some fu)
    (hpr : price_of ticket = some pr) :
    extract_event_fields record
      = some (mkOutput record evd geo coord ticket fu pr) := by
  unfold extract_event_fields
  exact Option.bind_eq_some.mpr ⟨evd, hev,
    Option.bind_eq_some.mpr ⟨geo, hgeo,
      Option.bind_eq_some.mpr ⟨coord, hcoord,
        Option.bind_eq_some.mpr ⟨ticket, hti,
          Option.bind_eq_some.mpr ⟨fu, hfu,
            Option.bind_eq_some.mpr ⟨pr, hpr, rfl⟩⟩⟩⟩⟩⟩

/-- Elimination form for a successful `extract_event_fields` run. -/
theorem extract_elim (record out : List (String × JVal))
    (h : extract_event_fields record = some out) :
    ∃ evd geo coord ticket fu pr,
      asDict (pyOr (pyGetD record "event" (JVal.obj [])) (JVal.obj []))
        = some evd ∧
      asDict (pyOr (dGet evd "geo_address_info") (JVal.obj [])) = some geo ∧
      asDict (pyOr (dGet evd "coordinate") (JVal.obj [])) = some coord ∧
      asDict (ticket_source record evd) = some ticket ∧
      full_url_of (dGet evd "url") = some fu ∧
      price_of ticket = some pr ∧
      out = mkOutput record evd geo coord ticket fu pr := by
  unfold extract_event_fields at h
  obtain ⟨evd, hev, h⟩ := Option.bind_eq_some.mp h
  obtain ⟨geo, hgeo, h⟩ := Option.bind_eq_some.mp h
  obtain ⟨coord, hcoord, h⟩ := Option.bind_eq_some.mp h
  obtain ⟨ticket, hti, h⟩ := Option.bind_eq_some.mp h
  obtain ⟨fu, hfu, h⟩ := Option.bind_eq_some.mp h
  obtain ⟨pr, hpr, h⟩ := Option.bind_eq_some.mp h
  exact ⟨evd, geo, coord, ticket, fu, pr, hev, hgeo, hcoord, hti, hfu, hpr,
    (Option.some_inj.mp h).symm⟩

/-- Safe records extract successfully. -/
theorem recordSafe_isSome (record : List (String × JVal))
    (h : recordSafe record = true) :
    (extract_event_fields record).isSome = true := by
  unfold recordSafe at h
  cases hev : pyOr (pyGetD record "event" (JVal.obj [])) (JVal.obj []) with
  | obj evd =>
    rw [hev] at h
    simp only [eventSafe, Bool.and_eq_true] at h
    obtain ⟨⟨⟨hg, hc⟩, hts⟩, hurl⟩ := h
    unfold isDict at hg hc
    obtain ⟨geo, hgeo⟩ := Option.isSome_iff_exists.mp hg
    obtain ⟨coord, hcoord⟩ := Option.isSome_iff_exists.mp hc
    cases htk : ticket_source record evd with
    | obj tk =>
      rw [htk] at hts
      simp only [ticketSafe] at hts
      obtain ⟨fu, hfu⟩ := Option.isSome_iff_exists.mp (urlSafe_isSome _ hurl)
      obtain ⟨pr, hpr⟩ := Option.isSome_iff_exists.mp (priceSafe_isSome _ hts)
      rw [extract_build record evd geo coord tk fu pr
        (by rw [hev]; rfl) hgeo hcoord (by rw [htk]; rfl) hfu hpr]
      rfl
    | null => rw [htk] at hts; simp [ticketSafe] at hts
    | bool b => rw [htk] at hts; simp [ticketSafe] at hts
    | num q => rw [htk] at hts; simp [ticketSafe] at hts
    | str s => rw [htk] at hts; simp [ticketSafe] at hts
    | arr xs => rw [htk] at hts; simp [ticketSafe] at hts
  | null => rw [hev] at h; simp [eventSafe] at h
  | bool b => rw [hev] at h; simp [eventSafe] at h
  | num q => rw [hev] at h; simp [eventSafe] at h
  | str s => rw [hev] at h; simp [eventSafe] at h
  | arr xs => rw [hev] at h; simp [eventSafe] at h

/-- A list of safe records extracts successfully. -/
theorem extract_records_isSome (rs : List (List (String × JVal)))
    (h : ∀ r ∈ rs, recordSafe r = true) :
    (extract_from_records rs).isSome = true := by
  induction rs with
  | nil => rfl
  | cons r rest ih =>
    obtain ⟨e, he⟩ :=
      Option.isSome_iff_exists.mp (recordSafe_isSome r (h r (by simp)))
    obtain ⟨es, hes⟩ :=
      Option.isSome_iff_exists.mp (ih (fun x hx => h x (by simp [hx])))
    unfold extract_from_records
    exact Option.isSome_iff_exists.mpr ⟨e :: es,
      Option.bind_eq_some.mpr ⟨e, he, Option.bind_eq_some.mpr ⟨es, hes, rfl⟩⟩⟩

/-- A body whose matched records are all safe is processed successfully. -/
theorem body_results_isSome (body : JVal)
    (h : ∀ rec ∈ find_event_dicts body, recordSafe rec = true) :
    (body_results body).isSome = true := by
  unfold body_results
  split
  · exact extract_records_isSome _ h
  · rfl

/-- The capture loop succeeds on dict captures whose matched records are
all safe. -/
theorem captures_isSome (captures : List JVal)
    (hdict : ∀ cap ∈ captures, isDict cap = true)
    (hsafe : ∀ cap ∈ captures, ∀ capd, asDict cap = some capd →
        ∀ rec ∈ find_event_dicts (dGet capd "body"), recordSafe rec = true) :
    (extract_from_captures captures).isSome = true := by
  induction captures with
  | nil => rfl
  | cons cap rest ih =>
    have hd := hdict cap (by simp)
    unfold isDict at hd
    obtain ⟨capd, hcapd⟩ := Option.isSome_iff_exists.mp hd
    have hthere := ih (fun c hc => hdict c (by simp [hc]))
      (fun c hc capd' h' => hsafe c (by simp [hc]) capd' h')
    obtain ⟨there, hthere'⟩ := Option.isSome_iff_exists.mp hthere
    obtain ⟨here, hhere'⟩ := Option.isSome_iff_exists.mp
      (body_results_isSome (dGet capd "body") (hsafe cap (by simp) capd hcapd))
    unfold extract_from_captures
    exact Option.isSome_iff_exists.mpr ⟨here ++ there,
      Option.bind_eq_some.mpr ⟨capd, hcapd,
        Option.bind_eq_some.mpr ⟨here, hhere',
          Option.bind_eq_some.mpr ⟨there, hthere', rfl⟩⟩⟩⟩

/-- `find_in_values` is the concatenation of the recursive results over
the mapping's values. -/
theorem find_in_values_flatten (kvs : List (String × JVal)) :
    find_in_values kvs = (kvs.map (fun p => find_event_dicts p.2)).flatten := by
  induction kvs with
  | nil => rfl
  | cons p rest ih => cases p; simp [find_in_values, ih]

/-- `find_in_elems` is the concatenation of the recursive results over the
sequence's elements. -/
theorem find_in_elems_flatten (xs : List JVal) :
    find_in_elems xs = (xs.map find_event_dicts).flatten := by
  induction xs with
  | nil => rfl
  | cons x rest ih => simp [find_in_elems, ih]

/-! ## Claim theorems -/

/-- **C2** (confirmed). For every JSON value, `find_event_dicts` computes
exactly the spec's traversal: a mapping that contains key `event` with a
mapping value is recorded as a match before its values, and its values
are still recursed into (matches may nest); a mapping without that shape
recurses into all its values; a sequence recurses into all its elements;
scalars terminate the recursion; the result is in encounter order
(depth-first, values in mapping/sequence iteration order). These
equations determine the function uniquely by structural recursion. -/
theorem find_event_dicts_traversal :
    (∀ kvs : List (String × JVal),
        find_event_dicts (JVal.obj kvs)
          = (if isEventRecord kvs then [kvs] else [])
            ++ (kvs.map (fun p => find_event_dicts p.2)).flatten)
  ∧ (∀ xs : List JVal,
        find_event_dicts (JVal.arr xs) = (xs.map find_event_dicts).flatten)
  ∧ find_event_dicts JVal.null = []
  ∧ (∀ b, find_event_dicts (JVal.bool b) = [])
  ∧ (∀ q : ℚ, find_event_dicts (JVal.num q) = [])
  ∧ (∀ s, find_event_dicts (JVal.str s) = []) := by
  refine ⟨fun kvs => ?_, fun xs => ?_, rfl, fun b => rfl, fun q => rfl,
    fun s => rfl⟩
  · rw [← find_in_values_flatten]; rfl
  · rw [← find_in_elems_flatten]; rfl

/-- **C1** (amended). For every capture file that is a valid JSON array of
`{url, status, body}` objects, extraction never raises, provided every
matched record is type-safe for the projection: its truthy
`geo_address_info` / `coordinate` / ticket-source values are mappings, its
truthy `url` value is a string, and (unless marked free) its truthy
`price` value is a mapping whose `cents` is absent, null, a number or a
bool. (The unamended claim is refuted by
`extraction_raises_on_wellformed_body`.) -/
theorem extraction_never_raises_on_safe_captures (captures : List JVal)
    (hdict : ∀ cap ∈ captures, isDict cap = true)
    (hsafe : ∀ cap ∈ captures, ∀ capd, asDict cap = some capd →
        ∀ rec ∈ find_event_dicts (dGet capd "body"), recordSafe rec = true) :
    (parse_capture_to_events captures).isSome = true := by
  unfold parse_capture_to_events
  obtain ⟨evs, hevs⟩ :=
    Option.isSome_iff_exists.mp (captures_isSome captures hdict hsafe)
  exact Option.isSome_iff_exists.mpr ⟨(captures.length, evs),
    Option.bind_eq_some.mpr ⟨evs, hevs, rfl⟩⟩

/-- Witness for **C1**: a concrete capture whose event record is nested
two levels deep (mapping, then sequence) extracts successfully. -/
theorem extraction_never_raises_witness :
    (parse_capture_to_events
      [JVal.obj [("url", JVal.str "https://api2.luma.com/calendar/get"),
                 ("status", JVal.num 200),
                 ("body", JVal.obj [("entries", JVal.arr
                    [JVal.obj [("event", JVal.obj
                        [("name", JVal.str "E"), ("url", JVal.str "/e")]),
                      ("ticket_info", JVal.obj
                        [("is_free", JVal.bool true)])]])])]]).isSome = true := by
  apply extraction_never_raises_on_safe_captures
  · intro cap hc
    simp only [List.mem_singleton] at hc
    subst hc
    rfl
  · intro cap hc capd hcapd rec hrec
    simp only [List.mem_singleton] at hc
    subst hc
    have hcapd' : some [("url", JVal.str "https://api2.luma.com/calendar/get"),
                 ("status", JVal.num 200),
                 ("body", JVal.obj [("entries", JVal.arr
                    [JVal.obj [("event", JVal.obj
                        [("name", JVal.str "E"), ("url", JVal.str "/e")]),
                      ("ticket_info", JVal.obj
                        [("is_free", JVal.bool true)])]])])] = some capd := hcapd
    obtain rfl := (Option.some_inj.mp hcapd').symm
    have hfind : find_event_dicts
        (dGet [("url", JVal.str "https://api2.luma.com/calendar/get"),
                 ("status", JVal.num 200),
                 ("body", JVal.obj [("entries", JVal.arr
                    [JVal.obj [("event", JVal.obj
                        [("name", JVal.str "E"), ("url", JVal.str "/e")]),
                      ("ticket_info", JVal.obj
                        [("is_free", JVal.bool true)])]])])] "body")
        = [[("event", JVal.obj [("name", JVal.str "E"), ("url", JVal.str "/e")]),
            ("ticket_info", JVal.obj [("is_free", JVal.bool true)])]] := rfl
    rw [hfind] at hrec
    simp only [List.mem_singleton] at hrec
    subst hrec
    rfl

/-- Counterexample to **C1** as stated: a valid JSON array of
`{url, status, body}` objects with a well-formed body on which extraction
raises — the matched record's `geo_address_info` is a truthy string, so
`geo.get("city")` raises `AttributeError` (line 136). -/
theorem extraction_raises_on_wellformed_body :
    parse_capture_to_events
      [JVal.obj [("url", JVal.str "https://api2.luma.com/calendar/get"),
                 ("status", JVal.num 200),
                 ("body", JVal.obj [("event", JVal.obj
                    [("geo_address_info", JVal.str "somewhere")])])]]
      = none := by rfl

/-- `d.get(k)` returns the stored value when the key is present. -/
theorem dGet_of_find (kvs : List (String × JVal)) (k : String) (v : JVal)
    (h : dictFind kvs k = some v) : dGet kvs k = v := by
  unfold dGet pyGetD
  rw [h]

/-- `d.get(k)` returns `None` when the key is absent. -/
theorem dGet_of_none (kvs : List (String × JVal)) (k : String)
    (h : dictFind kvs k = none) : dGet kvs k = JVal.null := by
  unfold dGet pyGetD
  rw [h]

/-- A mapping with at least one key is truthy. -/
theorem truthy_obj_of_find (kvs : List (String × JVal)) (k : String) (v : JVal)
    (h : dictFind kvs k = some v) : truthy (JVal.obj kvs) = true := by
  cases kvs with
  | nil => simp [dictFind] at h
  | cons a l => simp [truthy]

/-- Looking up `url` in the output dict yields the derived URL. -/
theorem mkOutput_url (record evd geo coord ticket : List (String × JVal))
    (fu pr : JVal) :
    dictFind (mkOutput record evd geo coord ticket fu pr) "url" = some fu := rfl

/-- Looking up `ticket_price_usd` in the output dict yields the derived
price. -/
theorem mkOutput_price (record evd geo coord ticket : List (String × JVal))
    (fu pr : JVal) :
    dictFind (mkOutput record evd geo coord ticket fu pr) "ticket_price_usd"
      = some pr := rfl

/-- Looking up `ticket_is_free` in the output dict projects the chosen
ticket dict. -/
theorem mkOutput_is_free (record evd geo coord ticket : List (String × JVal))
    (fu pr : JVal) :
    dictFind (mkOutput record evd geo coord ticket fu pr) "ticket_is_free"
      = some (dGet ticket "is_free") := rfl

/-- A truthy record-level `ticket_info` is selected. -/
theorem ticket_source_left (record evd : List (String × JVal))
    (h : truthy (dGet record "ticket_info") = true) :
    ticket_source record evd = dGet record "ticket_info" := by
  unfold ticket_source pyOr
  simp [h]

/-- With a falsy record-level `ticket_info`, a truthy event-level one is
selected. -/
theorem ticket_source_mid (record evd : List (String × JVal))
    (h1 : truthy (dGet record "ticket_info") = false)
    (h2 : truthy (dGet evd "ticket_info") = true) :
    ticket_source record evd = dGet evd "ticket_info" := by
  unfold ticket_source pyOr
  simp [h1, h2]

/-- With both levels falsy, the empty mapping is selected. -/
theorem ticket_source_default (record evd : List (String × JVal))
    (h1 : truthy (dGet record "ticket_info") = false)
    (h2 : truthy (dGet evd "ticket_info") = false) :
    ticket_source record evd = JVal.obj [] := by
  unfold ticket_source pyOr
  simp [h1, h2]

/-- **C3** (confirmed). For every matched record whose `ticket_info` is
`{is_free: false, price: {cents: 2500}}`, the extracted
`ticket_price_usd` is 25; and for every matched record whose
`ticket_info` has `is_free: true`, it is null regardless of any `price`
value present. -/
theorem ticket_price_derivation :
    (∀ record evkvs out,
        dictFind record "event" = some (JVal.obj evkvs) →
        dictFind record "ticket_info" = some (JVal.obj
          [("is_free", JVal.bool false),
           ("price", JVal.obj [("cents", JVal.num 2500)])]) →
        extract_event_fields record = some out →
        dictFind out "ticket_price_usd" = some (JVal.num 25))
  ∧ (∀ record evkvs tk out,
        dictFind record "event" = some (JVal.obj evkvs) →
        dictFind record "ticket_info" = some (JVal.obj tk) →
        dictFind tk "is_free" = some (JVal.bool true) →
        extract_event_fields record = some out →
        dictFind out "ticket_price_usd" = some JVal.null) := by
  constructor
  · intro record evkvs out hm hti hout
    obtain ⟨evd, geo, coord, ticket, fu, pr, hev, hgeo, hcoord, htk, hfu, hpr, hmk⟩ :=
      extract_elim record out hout
    have hts : ticket_source record evd = JVal.obj
        [("is_free", JVal.bool false),
         ("price", JVal.obj [("cents", JVal.num 2500)])] := by
      rw [ticket_source_left record evd (by rw [dGet_of_find _ _ _ hti]; rfl)]
      exact dGet_of_find _ _ _ hti
    rw [hts] at htk
    obtain rfl : [("is_free", JVal.bool false),
        ("price", JVal.obj [("cents", JVal.num 2500)])] = ticket :=
      Option.some_inj.mp htk
    have : some (JVal.num ((2500 : ℚ) / 100)) = some pr := hpr
    obtain rfl := (Option.some_inj.mp this).symm
    rw [hmk, mkOutput_price]
    norm_num
  · intro record evkvs tk out hm hti hfree hout
    obtain ⟨evd, geo, coord, ticket, fu, pr, hev, hgeo, hcoord, htk, hfu, hpr, hmk⟩ :=
      extract_elim record out hout
    have hts : ticket_source record evd = JVal.obj tk := by
      rw [ticket_source_left record evd
        (by rw [dGet_of_find _ _ _ hti]; exact truthy_obj_of_find _ _ _ hfree)]
      exact dGet_of_find _ _ _ hti
    rw [hts] at htk
    obtain rfl : tk = ticket := Option.some_inj.mp htk
    have hp : price_of tk = some JVal.null := by
      unfold price_of
      rw [dGet_of_find _ _ _ hfree]
      simp [truthy]
    rw [hp] at hpr
    obtain rfl := (Option.some_inj.mp hpr)
    rw [hmk, mkOutput_price]

/-- **C4** (confirmed). For every matched record whose event mapping has
`url = "my-event"`, the output `url` is `"https://luma.com/my-event"`;
with `url = "/my-event"` the output is identical (exactly one leading
slash stripped before prefixing the fixed base). -/
theorem url_derivation :
    (∀ record evkvs out,
        dictFind record "event" = some (JVal.obj evkvs) →
        dictFind evkvs "url" = some (JVal.str "my-event") →
        extract_event_fields record = some out →
        dictFind out "url" = some (JVal.str "https://luma.com/my-event"))
  ∧ (∀ record evkvs out,
        dictFind record "event" = some (JVal.obj evkvs) →
        dictFind evkvs "url" = some (JVal.str "/my-event") →
        extract_event_fields record = some out →
        dictFind out "url" = some (JVal.str "https://luma.com/my-event")) := by
  constructor
  · intro record evkvs out hm hurl hout
    obtain ⟨evd, geo, coord, ticket, fu, pr, hev, hgeo, hcoord, htk, hfu, hpr, hmk⟩ :=
      extract_elim record out hout
    rw [ev_of_matched record evkvs hm] at hev
    obtain rfl : evkvs = evd := Option.some_inj.mp hev
    rw [dGet_of_find _ _ _ hurl] at hfu
    have : some (JVal.str "https://luma.com/my-event") = some fu := hfu
    obtain rfl := (Option.some_inj.mp this).symm
    rw [hmk, mkOutput_url]
  · intro record evkvs out hm hurl hout
    obtain ⟨evd, geo, coord, ticket, fu, pr, hev, hgeo, hcoord, htk, hfu, hpr, hmk⟩ :=
      extract_elim record out hout
    rw [ev_of_matched record evkvs hm] at hev
    obtain rfl : evkvs = evd := Option.some_inj.mp hev
    rw [dGet_of_find _ _ _ hurl] at hfu
    have : some (JVal.str "https://luma.com/my-event") = some fu := hfu
    obtain rfl := (Option.some_inj.mp this).symm
    rw [hmk, mkOutput_url]

/-- **C9** (confirmed). Ticket-info source precedence: the record-level
`ticket_info` is selected when truthy; the event-level one only when the
record-level one is absent or falsy; the empty mapping when both are
absent or falsy; and the ticket output fields of a successful extraction
are projected from the selected source. -/
theorem ticket_source_precedence :
    (∀ record evd : List (String × JVal),
        truthy (dGet record "ticket_info") = true →
        ticket_source record evd = dGet record "ticket_info")
  ∧ (∀ record evd : List (String × JVal),
        truthy (dGet record "ticket_info") = false →
        truthy (dGet evd "ticket_info") = true →
        ticket_source record evd = dGet evd "ticket_info")
  ∧ (∀ record evd : List (String × JVal),
        truthy (dGet record "ticket_info") = false →
        truthy (dGet evd "ticket_info") = false →
        ticket_source record evd = JVal.obj [])
  ∧ (∀ record evkvs tk out,
        dictFind record "event" = some (JVal.obj evkvs) →
        asDict (ticket_source record evkvs) = some tk →
        extract_event_fields record = some out →
        dictFind out "ticket_is_free" = some (dGet tk "is_free")) := by
  refine ⟨ticket_source_left, ticket_source_mid, ticket_source_default,
    fun record evkvs tk out hm hsrc hout => ?_⟩
  obtain ⟨evd, geo, coord, ticket, fu, pr, hev, hgeo, hcoord, htk, hfu, hpr, hmk⟩ :=
    extract_elim record out hout
  rw [ev_of_matched record evkvs hm] at hev
  obtain rfl : evkvs = evd := Option.some_inj.mp hev
  rw [hsrc] at htk
  obtain rfl : tk = ticket := Option.some_inj.mp htk
  rw [hmk, mkOutput_is_free]

/-- **C10** (confirmed). For every matched record whose event mapping has
a falsy url value (absent key, null, or the empty string), the output
`url` field is null — the fixed base prefix is never emitted on its
own. -/
theorem url_falsy_yields_null (record evkvs out : List (String × JVal))
    (hm : dictFind record "event" = some (JVal.obj evkvs))
    (hurl : dictFind evkvs "url" = none ∨ dictFind evkvs "url" = some JVal.null
        ∨ dictFind evkvs "url" = some (JVal.str ""))
    (hout : extract_event_fields record = some out) :
    dictFind out "url" = some JVal.null := by
  obtain ⟨evd, geo, coord, ticket, fu, pr, hev, hgeo, hcoord, htk, hfu, hpr, hmk⟩ :=
    extract_elim record out hout
  rw [ev_of_matched record evkvs hm] at hev
  obtain rfl : evkvs = evd := Option.some_inj.mp hev
  have hnull : full_url_of (dGet evkvs "url") = some JVal.null := by
    rcases hurl with h | h | h
    · rw [dGet_of_none _ _ h]; rfl
    · rw [dGet_of_find _ _ _ h]; rfl
    · rw [dGet_of_find _ _ _ h]; rfl
  rw [hnull] at hfu
  obtain rfl := Option.some_inj.mp hfu
  rw [hmk, mkOutput_url]

/-- **C5** (amended). For every matched record lacking the
`geo_address_info`, `coordinate` and `ticket_info` sub-objects — provided
its url value does not itself make the projection raise — no exception is
raised, the output carries the full fixed key set, and every output field
derived from those sub-objects is explicitly null (present with value
null, never omitted). (The unamended claim is refuted by
`missing_subobjects_raise_on_bad_url`.) -/
theorem missing_subobjects_all_null (record evkvs : List (String × JVal))
    (fu : JVal)
    (hm : dictFind record "event" = some (JVal.obj evkvs))
    (hgeo : dictFind evkvs "geo_address_info" = none)
    (hcoord : dictFind evkvs "coordinate" = none)
    (hti1 : dictFind record "ticket_info" = none)
    (hti2 : dictFind evkvs "ticket_info" = none)
    (hurl : full_url_of (dGet evkvs "url") = some fu) :
    extract_event_fields record
      = some (mkOutput record evkvs [] [] [] fu JVal.null)
    ∧ (mkOutput record evkvs [] [] [] fu JVal.null).map Prod.fst = output_keys
    ∧ ∀ k ∈ sub_object_keys,
        dictFind (mkOutput record evkvs [] [] [] fu JVal.null) k
          = some JVal.null := by
  refine ⟨?_, by rfl, ?_⟩
  · apply extract_build
    · rw [ev_of_matched record evkvs hm]; rfl
    · rw [dGet_of_none _ _ hgeo]; rfl
    · rw [dGet_of_none _ _ hcoord]; rfl
    · rw [ticket_source_default record evkvs
        (by rw [dGet_of_none _ _ hti1]; rfl)
        (by rw [dGet_of_none _ _ hti2]; rfl)]
      rfl
    · exact hurl
    · rfl
  · intro k hk
    simp only [sub_object_keys, List.mem_cons, List.not_mem_nil, or_false] at hk
    rcases hk with rfl|rfl|rfl|rfl|rfl|rfl|rfl|rfl|rfl|rfl|rfl|
      rfl|rfl|rfl|rfl|rfl|rfl|rfl|rfl|rfl|rfl|rfl
    all_goals rfl

/-- Counterexample to **C5** as stated: a matched record lacking all of
`geo_address_info`, `coordinate` and `ticket_info` on which
`extract_event_fields` still raises, because its truthy event url is a
number and line 128 calls `.startswith` on it. -/
theorem missing_subobjects_raise_on_bad_url :
    dictFind [("event", JVal.obj [("url", JVal.num 5)])] "event"
        = some (JVal.obj [("url", JVal.num 5)])
    ∧ dictFind [("url", JVal.num 5)] "geo_address_info" = none
    ∧ dictFind [("url", JVal.num 5)] "coordinate" = none
    ∧ dictFind [("event", JVal.obj [("url", JVal.num 5)])] "ticket_info" = none
    ∧ dictFind [("url", JVal.num 5)] "ticket_info" = none
    ∧ extract_event_fields [("event", JVal.obj [("url", JVal.num 5)])] = none :=
  ⟨rfl, rfl, rfl, rfl, rfl, rfl⟩

/-- Witness for **C5**: a concrete record lacking all three sub-objects. -/
theorem missing_subobjects_all_null_witness :
    extract_event_fields
        [("event", JVal.obj [("name", JVal.str "n"), ("url", JVal.str "x")])]
      = some (mkOutput
          [("event", JVal.obj [("name", JVal.str "n"), ("url", JVal.str "x")])]
          [("name", JVal.str "n"), ("url", JVal.str "x")] [] [] []
          (JVal.str "https://luma.com/x") JVal.null)
    ∧ (mkOutput
          [("event", JVal.obj [("name", JVal.str "n"), ("url", JVal.str "x")])]
          [("name", JVal.str "n"), ("url", JVal.str "x")] [] [] []
          (JVal.str "https://luma.com/x") JVal.null).map Prod.fst = output_keys
    ∧ ∀ k ∈ sub_object_keys,
        dictFind (mkOutput
          [("event", JVal.obj [("name", JVal.str "n"), ("url", JVal.str "x")])]
          [("name", JVal.str "n"), ("url", JVal.str "x")] [] [] []
          (JVal.str "https://luma.com/x") JVal.null) k = some JVal.null :=
  missing_subobjects_all_null _ _ _ rfl rfl rfl rfl rfl rfl

/-- Witness for **C3**: concrete priced and free records. -/
theorem ticket_price_derivation_witness :
    extract_event_fields
        [("event", JVal.obj [("name", JVal.str "n")]),
         ("ticket_info", JVal.obj [("is_free", JVal.bool false),
            ("price", JVal.obj [("cents", JVal.num 2500)])])]
      = some (mkOutput
          [("event", JVal.obj [("name", JVal.str "n")]),
           ("ticket_info", JVal.obj [("is_free", JVal.bool false),
              ("price", JVal.obj [("cents", JVal.num 2500)])])]
          [("name", JVal.str "n")] [] []
          [("is_free", JVal.bool false),
           ("price", JVal.obj [("cents", JVal.num 2500)])]
          JVal.null (JVal.num ((2500 : ℚ) / 100)))
    ∧ dictFind (mkOutput
          [("event", JVal.obj [("name", JVal.str "n")]),
           ("ticket_info", JVal.obj [("is_free", JVal.bool false),
              ("price", JVal.obj [("cents", JVal.num 2500)])])]
          [("name", JVal.str "n")] [] []
          [("is_free", JVal.bool false),
           ("price", JVal.obj [("cents", JVal.num 2500)])]
          JVal.null (JVal.num ((2500 : ℚ) / 100))) "ticket_price_usd"
        = some (JVal.num 25)
    ∧ extract_event_fields
        [("event", JVal.obj [("name", JVal.str "n")]),
         ("ticket_info", JVal.obj [("is_free", JVal.bool true),
            ("price", JVal.str "zzz")])]
      = some (mkOutput
          [("event", JVal.obj [("name", JVal.str "n")]),
           ("ticket_info", JVal.obj [("is_free", JVal.bool true),
              ("price", JVal.str "zzz")])]
          [("name", JVal.str "n")] [] []
          [("is_free", JVal.bool true), ("price", JVal.str "zzz")]
          JVal.null JVal.null)
    ∧ dictFind (mkOutput
          [("event", JVal.obj [("name", JVal.str "n")]),
           ("ticket_info", JVal.obj [("is_free", JVal.bool true),
              ("price", JVal.str "zzz")])]
          [("name", JVal.str "n")] [] []
          [("is_free", JVal.bool true), ("price", JVal.str "zzz")]
          JVal.null JVal.null) "ticket_price_usd" = some JVal.null :=
  ⟨rfl,
   ticket_price_derivation.1
     [("event", JVal.obj [("name", JVal.str "n")]),
      ("ticket_info", JVal.obj [("is_free", JVal.bool false),
         ("price", JVal.obj [("cents", JVal.num 2500)])])]
     [("name", JVal.str "n")] _ rfl rfl rfl,
   rfl,
   ticket_price_derivation.2
     [("event", JVal.obj [("name", JVal.str "n")]),
      ("ticket_info", JVal.obj [("is_free", JVal.bool true),
         ("price", JVal.str "zzz")])]
     [("name", JVal.str "n")]
     [("is_free", JVal.bool true), ("price", JVal.str "zzz")] _ rfl rfl rfl rfl⟩

/-- Witness for **C4**: concrete records with both url spellings. -/
theorem url_derivation_witness :
    extract_event_fields [("event", JVal.obj [("url", JVal.str "my-event")])]
      = some (mkOutput [("event", JVal.obj [("url", JVal.str "my-event")])]
          [("url", JVal.str "my-event")] [] [] []
          (JVal.str "https://luma.com/my-event") JVal.null)
    ∧ dictFind (mkOutput [("event", JVal.obj [("url", JVal.str "my-event")])]
          [("url", JVal.str "my-event")] [] [] []
          (JVal.str "https://luma.com/my-event") JVal.null) "url"
        = some (JVal.str "https://luma.com/my-event")
    ∧ extract_event_fields [("event", JVal.obj [("url", JVal.str "/my-event")])]
      = some (mkOutput [("event", JVal.obj [("url", JVal.str "/my-event")])]
          [("url", JVal.str "/my-event")] [] [] []
          (JVal.str "https://luma.com/my-event") JVal.null)
    ∧ dictFind (mkOutput [("event", JVal.obj [("url", JVal.str "/my-event")])]
          [("url", JVal.str "/my-event")] [] [] []
          (JVal.str "https://luma.com/my-event") JVal.null) "url"
        = some (JVal.str "https://luma.com/my-event") :=
  ⟨rfl,
   url_derivation.1 [("event", JVal.obj [("url", JVal.str "my-event")])]
     [("url", JVal.str "my-event")] _ rfl rfl rfl,
   rfl,
   url_derivation.2 [("event", JVal.obj [("url", JVal.str "/my-event")])]
     [("url", JVal.str "/my-event")] _ rfl rfl rfl⟩

/-- Witness for **C9**: concrete records for each precedence case. -/
theorem ticket_source_precedence_witness :
    ticket_source [("ticket_info", JVal.obj [("is_free", JVal.bool true)])]
        [("ticket_info", JVal.obj [("is_free", JVal.bool false)])]
      = dGet [("ticket_info", JVal.obj [("is_free", JVal.bool true)])] "ticket_info"
    ∧ ticket_source []
        [("ticket_info", JVal.obj [("is_free", JVal.bool false)])]
      = dGet [("ticket_info", JVal.obj [("is_free", JVal.bool false)])] "ticket_info"
    ∧ ticket_source [] [] = JVal.obj []
    ∧ dictFind (mkOutput
        [("event", JVal.obj []),
         ("ticket_info", JVal.obj [("is_free", JVal.bool true)])]
        [] [] [] [("is_free", JVal.bool true)] JVal.null JVal.null)
        "ticket_is_free"
      = some (dGet [("is_free", JVal.bool true)] "is_free") :=
  ⟨ticket_source_precedence.1 _ _ rfl,
   ticket_source_precedence.2.1 _ _ rfl rfl,
   ticket_source_precedence.2.2.1 _ _ rfl rfl,
   ticket_source_precedence.2.2.2
     [("event", JVal.obj []), ("ticket_info", JVal.obj [("is_free", JVal.bool true)])]
     [] [("is_free", JVal.bool true)] _ rfl rfl rfl⟩

/-- Witness for **C10**: a concrete record with an absent url key. -/
theorem url_falsy_yields_null_witness :
    dictFind (mkOutput [("event", JVal.obj [("name", JVal.str "n")])]
        [("name", JVal.str "n")] [] [] [] JVal.null JVal.null) "url"
      = some JVal.null :=
  url_falsy_yields_null [("event", JVal.obj [("name", JVal.str "n")])]
    [("name", JVal.str "n")] _ rfl (Or.inl rfl) rfl

/-- Once the captured count is flat from time `t` on and `last_count`
already equals it, no further update occurs and the loop breaks when the
idle check fires, returning the flat count. -/
theorem scroll_loop_flat (count : Nat → Nat) (timeout_idle : Nat) :
    ∀ fuel t idle, (∀ s, count (t + s) = count t) →
      t ≤ idle + timeout_idle →
      idle + timeout_idle + 1 ≤ t + fuel →
      scroll_loop count timeout_idle fuel t (count t) idle = some (count t) := by
  intro fuel
  induction fuel with
  | zero => intro t idle hs hinv hbud; omega
  | succ fuel ih =>
    intro t idle hs hinv hbud
    simp only [scroll_loop]
    have hct : count (t + 1) = count t := hs 1
    rw [hct]
    simp only [lt_self_iff_false, if_false]
    by_cases hbreak : timeout_idle < t + 1 - idle
    · rw [if_pos hbreak]
    · rw [if_neg hbreak]
      rw [← hct]
      exact ih (t + 1) idle
        (fun s => by rw [Nat.add_assoc]; rw [hs (1 + s), ← hs 1])
        (by omega) (by omega)

/-- From any state entered while the count is already flat, at most one
more `last_count`/`idle_since` update happens, and `timeout_idle + 2`
iterations suffice to hit the idle check and terminate. -/
theorem scroll_loop_silent (count : Nat → Nat) (timeout_idle : Nat)
    (fuel t last idle : Nat)
    (hs : ∀ s, count (t + s) = count t)
    (hl : last ≤ count t)
    (hinv : t ≤ idle + timeout_idle)
    (hidle : idle ≤ t)
    (hfuel : timeout_idle + 2 ≤ fuel) :
    scroll_loop count timeout_idle fuel t last idle = some (count t) := by
  rcases Nat.lt_or_ge last (count t) with hlt | hge
  · cases fuel with
    | zero => omega
    | succ fuel =>
      simp only [scroll_loop]
      have hct : count (t + 1) = count t := hs 1
      rw [hct]
      simp only [if_pos hlt]
      have hnb : ¬ (timeout_idle < t + 1 - (t + 1)) := by omega
      rw [if_neg hnb]
      rw [← hct]
      exact scroll_loop_flat count timeout_idle fuel (t + 1) (t + 1)
        (fun s => by rw [Nat.add_assoc]; rw [hs (1 + s), ← hs 1])
        (by omega) (by omega)
  · have heq : last = count t := le_antisymm hl hge
    subst heq
    exact scroll_loop_flat count timeout_idle fuel t idle hs hinv (by omega)

/-- Main loop invariant: from any reachable state at time `t ≤ T`, with
the count silent from `T` on, the loop terminates within the stated fuel
and returns the captured count at some time `u`. -/
theorem scroll_loop_reaches (count : Nat → Nat) (timeout_idle T : Nat)
    (hmono : Monotone count)
    (hsil : ∀ s, count (T + s) = count T) :
    ∀ fuel t last idle, last ≤ count t → t ≤ idle + timeout_idle →
      idle ≤ t → t ≤ T → T + timeout_idle + 3 ≤ t + fuel →
      ∃ u, scroll_loop count timeout_idle fuel t last idle = some (count u) := by
  intro fuel
  induction fuel with
  | zero => intro t last idle h1 h2 h3 h4 h5; omega
  | succ fuel ih =>
    intro t last idle hl hinv hidle htT hbud
    rcases Nat.eq_or_lt_of_le htT with heq | hlt
    · subst heq
      exact ⟨t, scroll_loop_silent count timeout_idle (fuel + 1) t last idle
        hsil hl hinv hidle (by omega)⟩
    · simp only [scroll_loop]
      by_cases hc : last < count (t + 1)
      · simp only [if_pos hc]
        have hnb : ¬ (timeout_idle < t + 1 - (t + 1)) := by omega
        rw [if_neg hnb]
        exact ih (t + 1) (count (t + 1)) (t + 1) le_rfl (by omega) le_rfl
          (by omega) (by omega)
      · simp only [if_neg hc]
        by_cases hbreak : timeout_idle < t + 1 - idle
        · rw [if_pos hbreak]
          exact ⟨t + 1, rfl⟩
        · rw [if_neg hbreak]
          exact ih (t + 1) last idle
            (hl.trans (hmono (Nat.le_succ t))) (by omega) (by omega)
            (by omega) (by omega)

/-- **C7** (confirmed). For every run in which no new matching response is
captured from time `T` on (the idle scenario: the monotone captured count
`count` goes silent), the scroll loop terminates — within
`T + timeout_idle + 3` iterations, i.e. once the elapsed time since the
capture list last grew exceeds the threshold — and returns the number of
responses captured up to that point (`count u` for the break time `u`),
which is what `capture_with_playwright` then returns. -/
theorem scroll_loop_idle_terminates (count : Nat → Nat) (timeout_idle T : Nat)
    (hmono : Monotone count)
    (hsil : ∀ s, count (T + s) = count T) :
    ∃ u, scroll_loop count timeout_idle (T + timeout_idle + 3) 0 0 0
      = some (count u) :=
  scroll_loop_reaches count timeout_idle T hmono hsil (T + timeout_idle + 3)
    0 0 0 (Nat.zero_le _) (by omega) le_rfl (Nat.zero_le _) (by omega)

/-- Witness for **C7**: a capture source that delivers one response at
each of the first two time units and then goes silent. -/
theorem scroll_loop_idle_terminates_witness :
    ∃ u, scroll_loop (fun t => min t 2) 1 (2 + 1 + 3) 0 0 0
      = some (min u 2) :=
  scroll_loop_idle_terminates (fun t => min t 2) 1 2
    (fun a b h => by simp only; omega)
    (fun s => by simp only; omega)

/-- **C6** (confirmed). When the Playwright import fails, the capture
stage raises the `RuntimeError` carrying the remediation instructions
before any navigation or file write, `main` exits with code 3, and
neither the capture file nor the output file is written. -/
theorem missing_playwright_exits_3 (responses : List JVal) :
    capture_with_playwright false responses
      = Except.error "Playwright is not installed. Install it with: `pip install playwright` and run `playwright install`"
    ∧ main_model false responses = ⟨some 3, none, none⟩ :=
  ⟨rfl, rfl⟩

/-- **C8** (confirmed). Extraction is deterministic: the serialized
output written by step 2 of `main` is a pure function of the capture
file's parsed contents, so two runs on the same capture file produce
byte-identical output. -/
theorem extraction_deterministic (captures : List JVal)
    (out1 out2 : Option String)
    (h1 : extraction_output captures = out1)
    (h2 : extraction_output captures = out2) :
    out1 = out2 :=
  h1.symm.trans h2

/-- Witness for **C8**: two evaluations on the empty capture array both
serialize to `"[]"`. -/
theorem extraction_deterministic_witness :
    (some "[]" : Option String) = some "[]" :=
  extraction_deterministic [] (some "[]") (some "[]") rfl rfl
